import Mathlib

/-!
# Verification of the KILT SDK encrypted 1:1 messaging core

A shallow embedding of `src/messaging/Message.ts`: the message-body tagged
union, envelope construction (the `Message` constructor and `encrypt`),
the validation layer (`ensureHashAndSignature`, `ensureOwnerIsSender`,
`decrypt`) and the secure-channel transport adapter (`decryptDIDComm`).

External collaborators (asymmetric encryption, hashing, signing, JSON
serialisation, the DIDComm packer and the JS regular-expression engine)
are modelled as explicit function parameters, following the collaborator
interfaces of the specification; the control flow and data flow of the
messaging module itself are translated statement-by-statement from the
source.
-/

set_option autoImplicit false

namespace KiltMessaging

/-- The closed enumeration of the sixteen protocol message kinds
(`MessageBodyType` in the source). -/
inductive MessageBodyType where
  | requestTerms
  | submitTerms
  | rejectTerms
  | initiateAttestation
  | requestAttestationForClaim
  | submitAttestationForClaim
  | rejectAttestationForClaim
  | requestClaimsForCTypes
  | submitClaimsForCTypesClassic
  | submitClaimsForCTypesPE
  | acceptClaimsForCTypes
  | rejectClaimsForCTypes
  | requestAcceptDelegation
  | submitAcceptDelegation
  | rejectAcceptDelegation
  | informCreateDelegation
  deriving DecidableEq, Repr

/-- The string value each enum member carries on the wire
(the right-hand sides of the `MessageBodyType` enum in the source). -/
def MessageBodyType.toStr : MessageBodyType → String
  | .requestTerms => "request-terms"
  | .submitTerms => "submit-terms"
  | .rejectTerms => "reject-terms"
  | .initiateAttestation => "initiate-attestation"
  | .requestAttestationForClaim => "request-attestation-for-claim"
  | .submitAttestationForClaim => "submit-attestation-for-claim"
  | .rejectAttestationForClaim => "reject-attestation-for-claim"
  | .requestClaimsForCTypes => "request-claims-for-ctypes"
  | .submitClaimsForCTypesClassic => "submit-claims-for-ctypes-classic"
  | .submitClaimsForCTypesPE => "submit-claims-for-ctypes-pe"
  | .acceptClaimsForCTypes => "accept-claims-for-ctypes"
  | .rejectClaimsForCTypes => "reject-claims-for-ctypes"
  | .requestAcceptDelegation => "request-accept-delegation"
  | .submitAcceptDelegation => "submit-accept-delegation"
  | .rejectAcceptDelegation => "reject-accept-delegation"
  | .informCreateDelegation => "inform-create-delegation"

/-- `Object.values(MessageBodyType)`: the list of all wire strings, in enum
declaration order. -/
def messageBodyTypeValues : List String :=
  [ "request-terms", "submit-terms", "reject-terms",
    "initiate-attestation",
    "request-attestation-for-claim", "submit-attestation-for-claim",
    "reject-attestation-for-claim",
    "request-claims-for-ctypes", "submit-claims-for-ctypes-classic",
    "submit-claims-for-ctypes-pe", "accept-claims-for-ctypes",
    "reject-claims-for-ctypes",
    "request-accept-delegation", "submit-accept-delegation",
    "reject-accept-delegation", "inform-create-delegation" ]

/-- `isKnownMessageType` from the source: membership of the string in
`Object.values(MessageBodyType)`. -/
def isKnownMessageType (t : String) : Bool :=
  messageBodyTypeValues.contains t

/-- Partial inverse of `MessageBodyType.toStr`: recover the enum member a
wire string denotes (the typed reading of the `type = typestr` narrowing
performed by `isKnownMessageType` in the source). -/
def messageBodyTypeOfString (s : String) : Option MessageBodyType :=
  if s = "request-terms" then some .requestTerms
  else if s = "submit-terms" then some .submitTerms
  else if s = "reject-terms" then some .rejectTerms
  else if s = "initiate-attestation" then some .initiateAttestation
  else if s = "request-attestation-for-claim" then some .requestAttestationForClaim
  else if s = "submit-attestation-for-claim" then some .submitAttestationForClaim
  else if s = "reject-attestation-for-claim" then some .rejectAttestationForClaim
  else if s = "request-claims-for-ctypes" then some .requestClaimsForCTypes
  else if s = "submit-claims-for-ctypes-classic" then some .submitClaimsForCTypesClassic
  else if s = "submit-claims-for-ctypes-pe" then some .submitClaimsForCTypesPE
  else if s = "accept-claims-for-ctypes" then some .acceptClaimsForCTypes
  else if s = "reject-claims-for-ctypes" then some .rejectClaimsForCTypes
  else if s = "request-accept-delegation" then some .requestAcceptDelegation
  else if s = "submit-accept-delegation" then some .submitAcceptDelegation
  else if s = "reject-accept-delegation" then some .rejectAcceptDelegation
  else if s = "inform-create-delegation" then some .informCreateDelegation
  else none

/-- A claim (`IClaim`): claim-type hash, contents and the owner address. -/
structure IClaim where
  cTypeHash : String
  contents : String
  owner : String
  deriving DecidableEq, Repr

/-- A partial claim (`IPartialClaim`): only `cTypeHash` is mandatory. -/
structure IPartialClaim where
  cTypeHash : String
  owner : Option String
  contents : Option String
  deriving DecidableEq, Repr

/-- A request for attestation (`IRequestForAttestation`), kept to the
fields the messaging layer reads: the embedded claim and the root hash. -/
structure IRequestForAttestation where
  claim : IClaim
  rootHash : String
  deriving DecidableEq, Repr

/-- An attestation (`IAttestation`). -/
structure IAttestation where
  claimHash : String
  cTypeHash : String
  owner : String
  delegationId : Option String
  revoked : Bool
  deriving DecidableEq, Repr

/-- An attested claim (`IAttestedClaim`): the request plus its attestation. -/
structure IAttestedClaim where
  request : IRequestForAttestation
  attestation : IAttestation
  deriving DecidableEq, Repr

/-- Content of a `REQUEST_ATTESTATION_FOR_CLAIM` body. -/
structure IRequestAttestationContent where
  requestForAttestation : IRequestForAttestation
  quote : Option String
  deriving DecidableEq, Repr

/-- Content of a `SUBMIT_ATTESTATION_FOR_CLAIM` body. -/
structure ISubmitAttestationContent where
  attestation : IAttestation
  attestationPE : Option String
  deriving DecidableEq, Repr

/-- Content of a `REJECT_TERMS` body. -/
structure IRejectTermsContent where
  claim : IPartialClaim
  legitimations : List IAttestedClaim
  delegationId : Option String
  deriving DecidableEq, Repr

/-- The `MessageBody` tagged union: one constructor per member of the
closed enumeration, each carrying its variant-specific content.  Contents
whose shape the messaging layer never inspects (terms payloads,
portablegabi blobs, delegation data, ctype-hash lists) are carried as
opaque payloads. -/
inductive MessageBody where
  | requestTerms (content : IPartialClaim)
  | submitTerms (content : String)
  | rejectTerms (content : IRejectTermsContent)
  | initiateAttestation (content : String)
  | requestAttestationForClaim (content : IRequestAttestationContent)
  | submitAttestationForClaim (content : ISubmitAttestationContent)
  | rejectAttestationForClaim (content : String)
  | requestClaimsForCTypes (content : String)
  | submitClaimsForCTypesClassic (content : List IAttestedClaim)
  | submitClaimsForCTypesPE (content : String)
  | acceptClaimsForCTypes (content : List String)
  | rejectClaimsForCTypes (content : List String)
  | requestAcceptDelegation (content : String)
  | submitAcceptDelegation (content : String)
  | rejectAcceptDelegation (content : String)
  | informCreateDelegation (content : String)
  deriving DecidableEq, Repr

/-- The `type` discriminator of a body. -/
def MessageBody.type : MessageBody → MessageBodyType
  | .requestTerms _ => .requestTerms
  | .submitTerms _ => .submitTerms
  | .rejectTerms _ => .rejectTerms
  | .initiateAttestation _ => .initiateAttestation
  | .requestAttestationForClaim _ => .requestAttestationForClaim
  | .submitAttestationForClaim _ => .submitAttestationForClaim
  | .rejectAttestationForClaim _ => .rejectAttestationForClaim
  | .requestClaimsForCTypes _ => .requestClaimsForCTypes
  | .submitClaimsForCTypesClassic _ => .submitClaimsForCTypesClassic
  | .submitClaimsForCTypesPE _ => .submitClaimsForCTypesPE
  | .acceptClaimsForCTypes _ => .acceptClaimsForCTypes
  | .rejectClaimsForCTypes _ => .rejectClaimsForCTypes
  | .requestAcceptDelegation _ => .requestAcceptDelegation
  | .submitAcceptDelegation _ => .submitAcceptDelegation
  | .rejectAcceptDelegation _ => .rejectAcceptDelegation
  | .informCreateDelegation _ => .informCreateDelegation

/-- The errors the messaging layer can raise (`SDKErrors` plus the
signature failure raised by `validateSignature`). -/
inductive SDKError where
  | identityMismatch (entity role : String)
  | nonceHashInvalid (hash nonce : String)
  | signatureUnverifiable
  | decodingMessage
  | parsingMessage
  deriving DecidableEq, Repr

/-- Result of `encryptAsymmetricAsStr`: ciphertext box plus the (fresh)
encryption nonce (`EncryptedAsymmetricString` in the source). -/
structure EncryptedAsymmetricString where
  box : String
  nonce : String
  deriving DecidableEq, Repr

/-- Modelled from the spec: the collaborator interfaces of the external
cryptographic and serialisation engines (spec section 6), which live
outside the messaging module (`Crypto`, `Identity` key material, the JSON
engine).  Encryption takes its fresh randomness as an explicit last
argument; decryption and parsing are fallible. -/
structure CryptoModel where
  hashStr : String → String
  encryptAsymmetricAsStr :
    String → String → String → String → EncryptedAsymmetricString
  decryptAsymmetricAsStr :
    String → EncryptedAsymmetricString → String → Option String
  signStr : String → String → String
  validateSignature : String → String → String → Bool
  stringifyBody : MessageBody → String
  parseBody : String → Option MessageBody

/-- A public identity (`IPublicIdentity`): address and public encryption
key. -/
structure IPublicIdentity where
  address : String
  boxPublicKeyAsHex : String
  deriving DecidableEq, Repr

/-- A full identity: public part plus the private key material (seed),
which the crypto collaborator consumes. -/
structure Identity where
  address : String
  boxPublicKeyAsHex : String
  secret : String
  deriving DecidableEq, Repr

/-- The wire form (`IEncryptedMessage`): routing metadata plus the four
derived fields `message`, `nonce`, `hash`, `signature`. -/
structure IEncryptedMessage where
  createdAt : Nat
  receiverAddress : String
  senderAddress : String
  senderBoxPublicKey : String
  messageId : Option String
  receivedAt : Option Nat
  message : String
  nonce : String
  hash : String
  signature : String
  deriving DecidableEq, Repr

/-- The in-memory `Message` instance: the plaintext fields set by the
constructor together with the four private derived fields. -/
structure Message where
  body : MessageBody
  createdAt : Nat
  receiverAddress : String
  senderAddress : String
  senderBoxPublicKey : String
  messageId : Option String
  receivedAt : Option Nat
  message : String
  nonce : String
  hash : String
  signature : String
  deriving DecidableEq, Repr

/-- The runtime shape of the value `decrypt` returns: the object spread
`\x7b ...encrypted, body \x7d`, i.e. every field of the wire form plus the
parsed body. -/
structure DecryptedMessage where
  body : MessageBody
  createdAt : Nat
  receiverAddress : String
  senderAddress : String
  senderBoxPublicKey : String
  messageId : Option String
  receivedAt : Option Nat
  message : String
  nonce : String
  hash : String
  signature : String
  deriving DecidableEq, Repr

/-- The `Message` constructor: stores the plaintext fields, encrypts
`JSON.stringify(body)` under the receiver's public encryption key (with
fresh randomness `rand`), hashes ciphertext concatenated with nonce and the
decimal rendering of `createdAt`, and signs the hash.  `now` stands for
`Date.now()`. -/
def constructMessage (C : CryptoModel) (body : MessageBody)
    (sender : Identity) (receiver : IPublicIdentity)
    (now : Nat) (rand : String) : Message :=
  let encryptedMessage : EncryptedAsymmetricString :=
    C.encryptAsymmetricAsStr sender.secret (C.stringifyBody body)
      receiver.boxPublicKeyAsHex rand
  let hashInput : String :=
    encryptedMessage.box ++ encryptedMessage.nonce ++ toString now
  { body := body
    createdAt := now
    receiverAddress := receiver.address
    senderAddress := sender.address
    senderBoxPublicKey := sender.boxPublicKeyAsHex
    messageId := none
    receivedAt := none
    message := encryptedMessage.box
    nonce := encryptedMessage.nonce
    hash := C.hashStr hashInput
    signature := C.signStr sender.secret (C.hashStr hashInput) }

/-- `Message.encrypt`: project the instance onto the wire form. -/
def Message.encrypt (m : Message) : IEncryptedMessage :=
  { messageId := m.messageId
    receivedAt := m.receivedAt
    message := m.message
    nonce := m.nonce
    createdAt := m.createdAt
    hash := m.hash
    signature := m.signature
    receiverAddress := m.receiverAddress
    senderAddress := m.senderAddress
    senderBoxPublicKey := m.senderBoxPublicKey }

/-- The `forEach` loop of the `SUBMIT_CLAIMS_FOR_CTYPES_CLASSIC` branch of
`ensureOwnerIsSender`: throws at the first attested claim whose claim owner
differs from the sender. -/
def checkClaimsOwner (senderAddress : String) :
    List IAttestedClaim → Except SDKError Unit
  | [] => .ok ()
  | c :: rest =>
    if c.request.claim.owner ≠ senderAddress then
      .error (.identityMismatch "Claims" "Sender")
    else checkClaimsOwner senderAddress rest

/-- `Message.ensureOwnerIsSender`: dispatch on `body.type`; the three
kinds embedding a claim, an attestation, or a list of claims compare the
embedded owner to the sender address, every other kind falls through the
`default` case. -/
def ensureOwnerIsSender (body : MessageBody) (senderAddress : String) :
    Except SDKError Unit :=
  match body with
  | .requestAttestationForClaim c =>
    if c.requestForAttestation.claim.owner ≠ senderAddress then
      .error (.identityMismatch "Claim" "Sender")
    else .ok ()
  | .submitAttestationForClaim c =>
    if c.attestation.owner ≠ senderAddress then
      .error (.identityMismatch "Attestation" "Sender")
    else .ok ()
  | .submitClaimsForCTypesClassic cs => checkClaimsOwner senderAddress cs
  | _ => .ok ()

/-- `Message.ensureHashAndSignature`: recompute the digest of
ciphertext concatenated with nonce and `createdAt`; on mismatch raise the
nonce-hash-invalid error carrying the transmitted hash and nonce; otherwise
validate the signature on the hash against the claimed sender address. -/
def ensureHashAndSignature (C : CryptoModel) (encrypted : IEncryptedMessage)
    (senderAddress : String) : Except SDKError Unit :=
  if C.hashStr (encrypted.message ++ encrypted.nonce ++ toString encrypted.createdAt)
      ≠ encrypted.hash then
    .error (.nonceHashInvalid encrypted.hash encrypted.nonce)
  else if C.validateSignature encrypted.hash encrypted.signature senderAddress then
    .ok ()
  else .error .signatureUnverifiable

/-- The object spread `\x7b ...encrypted, body: messageBody \x7d` built in
`decrypt`. -/
def spreadWithBody (encrypted : IEncryptedMessage) (body : MessageBody) :
    DecryptedMessage :=
  { body := body
    createdAt := encrypted.createdAt
    receiverAddress := encrypted.receiverAddress
    senderAddress := encrypted.senderAddress
    senderBoxPublicKey := encrypted.senderBoxPublicKey
    messageId := encrypted.messageId
    receivedAt := encrypted.receivedAt
    message := encrypted.message
    nonce := encrypted.nonce
    hash := encrypted.hash
    signature := encrypted.signature }

/-- `Message.decrypt`: hash-and-signature check first, then asymmetric
decryption (a `false` result, and likewise an empty decoded string, is
falsy and raises the decoding error), then `JSON.parse` and
`ensureOwnerIsSender` inside a `try` block whose `catch` rethrows any
failure — a parse failure or an identity mismatch alike — as the parsing
error. -/
def decrypt (C : CryptoModel) (encrypted : IEncryptedMessage)
    (receiver : Identity) : Except SDKError DecryptedMessage :=
  match ensureHashAndSignature C encrypted encrypted.senderAddress with
  | .error e => .error e
  | .ok _ =>
    match C.decryptAsymmetricAsStr receiver.secret
        ⟨encrypted.message, encrypted.nonce⟩ encrypted.senderBoxPublicKey with
    | none => .error .decodingMessage
    | some decoded =>
      if decoded = "" then .error .decodingMessage
      else
        match C.parseBody decoded with
        | none => .error .parsingMessage
        | some messageBody =>
          match ensureOwnerIsSender messageBody encrypted.senderAddress with
          | .error _ => .error .parsingMessage
          | .ok _ => .ok (spreadWithBody encrypted messageBody)

/-- The protocol name constant `PROTOCOL_NAME`. -/
def PROTOCOL_NAME : String := "kilt-messaging"

/-- The protocol version constant `PROTOCOL_VERSION`. -/
def PROTOCOL_VERSION : String := "0.19"

/-- The errors `decryptDIDComm` can raise: the protocol handler error, the
unknown-message-type error, the missing-or-invalid type-URI error, and
failures of the external unpack and JSON steps. -/
inductive DIDCommError where
  | cantHandleProtocol (name version : String)
  | unknownMessageType (typestr : String)
  | invalidTypeUri
  | unpackFailure
  | contentsParseFailure
  deriving DecidableEq, Repr

/-- The result of `didcomm.unpackMessage`: the inner JSON string plus the
base58 sender and recipient signing keys. -/
structure UnpackedMessage where
  message : String
  senderKey : String
  recipientKey : String
  deriving DecidableEq, Repr

/-- The JSON object carried inside a DIDComm envelope: the `@type` URI
(when present as a string), the payload, `sent_time`, and the sender's box
public key field. -/
structure DIDCommContents where
  typeUri : Option String
  content : String
  sentTime : String
  senderBoxPublicKey : Option String
  deriving DecidableEq, Repr

/-- Modelled from the spec: the external engines `decryptDIDComm` drives —
the DIDComm unpacker (keyed by the recipient's seed), `JSON.parse` of the
unpacked payload, the JS regular-expression match of `typestringReg`
returning its four capture groups, address decoding/encoding, and
`Date(...).getTime()`. -/
structure DIDCommEnv where
  unpackMessage : String → String → Option UnpackedMessage
  parseJson : String → Option DIDCommContents
  typeUriCaptures : String → Option (String × String × String × String)
  decodeThenEncodeAddress : String → String
  parseSentTime : String → Int

/-- The untyped message `decryptDIDComm` returns: the recognised body
type together with the raw content, plus the routing metadata recovered
from the envelope. -/
structure DIDCommMessage where
  bodyType : MessageBodyType
  content : String
  createdAt : Int
  senderBoxPublicKey : String
  receiverAddress : String
  senderAddress : String
  deriving DecidableEq, Repr

/-- `Message.decryptDIDComm`: unpack the wire string with the recipient's
key material, `JSON.parse` the payload, match the `@type` URI against
`typestringReg`; on a match, reject a foreign protocol name or version,
then reject an unrecognised message-type segment; if the URI is absent or
does not match, fail with the no-or-invalid-type-URI error; otherwise
assemble the message from the contents and the recovered keys. -/
def decryptDIDComm (env : DIDCommEnv) (wire : String)
    (recipientSecret : String) : Except DIDCommError DIDCommMessage :=
  match env.unpackMessage wire recipientSecret with
  | none => .error .unpackFailure
  | some unpacked =>
    match env.parseJson unpacked.message with
    | none => .error .contentsParseFailure
    | some contents =>
      match contents.typeUri with
      | none => .error .invalidTypeUri
      | some uri =>
        match env.typeUriCaptures uri with
        | none => .error .invalidTypeUri
        | some (_, name, version, typestr) =>
          if name ≠ PROTOCOL_NAME ∨ version ≠ PROTOCOL_VERSION then
            .error (.cantHandleProtocol name version)
          else
            match messageBodyTypeOfString typestr with
            | none => .error (.unknownMessageType typestr)
            | some t =>
              .ok { bodyType := t
                    content := contents.content
                    createdAt := env.parseSentTime contents.sentTime
                    senderBoxPublicKey := contents.senderBoxPublicKey.getD ""
                    receiverAddress :=
                      env.decodeThenEncodeAddress unpacked.recipientKey
                    senderAddress :=
                      env.decodeThenEncodeAddress unpacked.senderKey }

/-- The owner addresses embedded in a body, as read by
`ensureOwnerIsSender`: the claim owner of a request for attestation, the
attestation owner of a submitted attestation, and the claim owners of each
submitted classic attested claim; every other kind embeds none. -/
def embeddedOwners : MessageBody → List String
  | .requestAttestationForClaim c => [c.requestForAttestation.claim.owner]
  | .submitAttestationForClaim c => [c.attestation.owner]
  | .submitClaimsForCTypesClassic cs =>
    cs.map fun c => c.request.claim.owner
  | _ => []

/-- The entity name the identity-mismatch error reports for each
ownership-carrying kind. -/
def ownerEntity : MessageBody → String
  | .requestAttestationForClaim _ => "Claim"
  | .submitAttestationForClaim _ => "Attestation"
  | .submitClaimsForCTypesClassic _ => "Claims"
  | _ => ""

/-- A concrete instantiation of the collaborator interfaces used to
evaluate the theorems on closed inputs: encryption returns the plaintext
as the box and the supplied randomness as the nonce, decryption returns
the box, hashing and signing are the identity, every signature validates,
and the body codec recognises exactly the serialisation of the single body
`b0`. -/
def toyCrypto (b0 : MessageBody) : CryptoModel :=
  { hashStr := fun s => s
    encryptAsymmetricAsStr := fun _ plaintext _ rand => ⟨plaintext, rand⟩
    decryptAsymmetricAsStr := fun _ ea _ => some ea.box
    signStr := fun _ payload => payload
    validateSignature := fun _ _ _ => true
    stringifyBody := fun _ => "serialised-body"
    parseBody := fun s => if s = "serialised-body" then some b0 else none }

/-- A concrete sender identity for closed evaluations. -/
def aliceId : Identity :=
  { address := "5Alice", boxPublicKeyAsHex := "0xalicebox", secret := "alice-seed" }

/-- A concrete receiver identity for closed evaluations. -/
def bobId : Identity :=
  { address := "5Bob", boxPublicKeyAsHex := "0xbobbox", secret := "bob-seed" }

/-- Bob's public identity. -/
def bobPub : IPublicIdentity :=
  { address := "5Bob", boxPublicKeyAsHex := "0xbobbox" }

/-- A concrete `REQUEST_TERMS` body. -/
def bodyReqTerms : MessageBody :=
  .requestTerms { cTypeHash := "0xabc", owner := none, contents := none }

/-- A concrete `REQUEST_ATTESTATION_FOR_CLAIM` body whose embedded claim
is owned by the given address. -/
def reqAttBody (owner : String) : MessageBody :=
  .requestAttestationForClaim
    { requestForAttestation :=
        { claim := { cTypeHash := "0xabc", contents := "c", owner := owner }
          rootHash := "0xroot" }
      quote := none }

/-- A concrete `SUBMIT_ATTESTATION_FOR_CLAIM` body whose attestation is
owned by the given address. -/
def subAttBody (owner : String) : MessageBody :=
  .submitAttestationForClaim
    { attestation :=
        { claimHash := "0xch", cTypeHash := "0xabc", owner := owner
          delegationId := none, revoked := false }
      attestationPE := none }

/-- A concrete wire message whose transmitted hash cannot match any
recomputation under the toy model (`hashStr` is the identity, and the
recomputed digest of this wire is the string `ctnn7`). -/
def tamperedWire : IEncryptedMessage :=
  { createdAt := 7, receiverAddress := "5Bob", senderAddress := "5Alice"
    senderBoxPublicKey := "0xalicebox", messageId := none, receivedAt := none
    message := "ct", nonce := "nn", hash := "bad-hash", signature := "sig" }

/-- A concrete wire message whose transmitted hash matches the toy
recomputation (identity digest of `ct` concatenated with `nn` and `7`). -/
def intactWire : IEncryptedMessage :=
  { createdAt := 7, receiverAddress := "5Bob", senderAddress := "5Alice"
    senderBoxPublicKey := "0xalicebox", messageId := none, receivedAt := none
    message := "ct", nonce := "nn", hash := "ctnn7", signature := "ctnn7" }

/-- The toy model altered so that asymmetric decryption yields the empty
string. -/
def emptyPlaintextCrypto : CryptoModel :=
  { toyCrypto bodyReqTerms with
      decryptAsymmetricAsStr := fun _ _ _ => some "" }

/-- A concrete secure-channel environment whose unpack and JSON steps
succeed and whose type-URI field and regular-expression captures are the
given ones. -/
def toyDIDCommEnv (typeUri : Option String)
    (caps : Option (String × String × String × String)) : DIDCommEnv :=
  { unpackMessage := fun _ _ =>
      some { message := "payload", senderKey := "sk", recipientKey := "rk" }
    parseJson := fun _ =>
      some { typeUri := typeUri, content := "c", sentTime := "t"
             senderBoxPublicKey := none }
    typeUriCaptures := fun _ => caps
    decodeThenEncodeAddress := fun s => s
    parseSentTime := fun _ => 0 }

/-- Equality of `Except` results is decidable, so theorems can be
evaluated on closed inputs. -/
instance instDecEqExcept {ε α : Type} [DecidableEq ε] [DecidableEq α] :
    DecidableEq (Except ε α)
  | .error a, .error b =>
    if h : a = b then .isTrue (by rw [h])
    else .isFalse fun hh => h (Except.error.inj hh)
  | .error _, .ok _ => .isFalse fun hh => Except.noConfusion hh
  | .ok _, .error _ => .isFalse fun hh => Except.noConfusion hh
  | .ok a, .ok b =>
    if h : a = b then .isTrue (by rw [h])
    else .isFalse fun hh => h (Except.ok.inj hh)

/-! ## Helper lemmas -/

theorem constructMessage_message (C : CryptoModel) (b : MessageBody)
    (snd : Identity) (rcv : IPublicIdentity) (now : Nat) (rand : String) :
    (constructMessage C b snd rcv now rand).message =
      (C.encryptAsymmetricAsStr snd.secret (C.stringifyBody b)
        rcv.boxPublicKeyAsHex rand).box := rfl

theorem constructMessage_nonce (C : CryptoModel) (b : MessageBody)
    (snd : Identity) (rcv : IPublicIdentity) (now : Nat) (rand : String) :
    (constructMessage C b snd rcv now rand).nonce =
      (C.encryptAsymmetricAsStr snd.secret (C.stringifyBody b)
        rcv.boxPublicKeyAsHex rand).nonce := rfl

theorem constructMessage_hash (C : CryptoModel) (b : MessageBody)
    (snd : Identity) (rcv : IPublicIdentity) (now : Nat) (rand : String) :
    (constructMessage C b snd rcv now rand).hash =
      C.hashStr ((constructMessage C b snd rcv now rand).message ++
        (constructMessage C b snd rcv now rand).nonce ++ toString now) := rfl

theorem checkClaimsOwner_eq_ok_iff (s : String) (cs : List IAttestedClaim) :
    checkClaimsOwner s cs = .ok () ↔ ∀ c ∈ cs, c.request.claim.owner = s := by
  induction cs with
  | nil => simp [checkClaimsOwner]
  | cons c rest ih =>
    by_cases h : c.request.claim.owner = s
    · simp [checkClaimsOwner, h, ih]
    · simp [checkClaimsOwner, h]

theorem checkClaimsOwner_ok_or_err (s : String) (cs : List IAttestedClaim) :
    checkClaimsOwner s cs = .ok () ∨
      checkClaimsOwner s cs = .error (.identityMismatch "Claims" "Sender") := by
  induction cs with
  | nil => exact .inl rfl
  | cons c rest ih =>
    by_cases h : c.request.claim.owner = s
    · simpa [checkClaimsOwner, h] using ih
    · simp [checkClaimsOwner, h]

theorem string_append_inj {a b c d : String} (h : a ++ b = c ++ d)
    (hl : a.length = c.length) : a = c ∧ b = d := by
  have hdata : a.data ++ b.data = c.data ++ d.data := by
    have h2 := congrArg String.data h
    simpa using h2
  have hlen : a.data.length = c.data.length := hl
  obtain ⟨h1, h2⟩ := List.append_inj hdata hlen
  refine ⟨?_, ?_⟩
  · cases a; cases c; exact congrArg String.mk h1
  · cases b; cases d; exact congrArg String.mk h2

theorem string_append_right_cancel {a b t : String} (h : a ++ t = b ++ t) :
    a = b := by
  have hl : a.length = b.length := by
    have h2 := congrArg String.length h
    simp [String.length_append] at h2
    omega
  exact (string_append_inj h hl).1

theorem messageBodyTypeOfString_eq_none_of_not_known (t : String)
    (h : isKnownMessageType t = false) : messageBodyTypeOfString t = none := by
  simp [isKnownMessageType, messageBodyTypeValues] at h
  simp [messageBodyTypeOfString, h]

/-! ## Claim theorems -/

/-- C2: the hash/signature check comes first in `decrypt`; whenever the
transmitted hash differs from the recomputed digest of ciphertext, nonce
and `createdAt`, `decrypt` fails with the nonce-hash-invalid error —
uniformly in the whole crypto model, in particular whatever the asymmetric
decryption would do on the (possibly corrupt) ciphertext, so decryption is
never reached. -/
theorem decrypt_fails_nonceHashInvalid_on_hash_mismatch
    (C : CryptoModel) (e : IEncryptedMessage) (r : Identity)
    (h : C.hashStr (e.message ++ e.nonce ++ toString e.createdAt) ≠ e.hash) :
    decrypt C e r = .error (.nonceHashInvalid e.hash e.nonce) := by
  simp [decrypt, ensureHashAndSignature, h]

/-- C2 witness: the toy model on a wire whose hash field was tampered
with. -/
theorem decrypt_fails_nonceHashInvalid_on_hash_mismatch_witness :
    decrypt (toyCrypto bodyReqTerms) tamperedWire bobId =
      .error (.nonceHashInvalid "bad-hash" "nn") :=
  decrypt_fails_nonceHashInvalid_on_hash_mismatch
    (toyCrypto bodyReqTerms) tamperedWire bobId (by decide)

/-- C4: `ensureHashAndSignature` raises the nonce-hash-invalid error
(carrying the transmitted hash and nonce) exactly when the recomputed
digest of ciphertext, nonce and `createdAt` — in that concatenation order
— differs from the transmitted hash; when the digest matches it reduces to
the signature validation of the transmitted hash against the claimed
sender address, raising the signature error on failure and returning
cleanly otherwise; and the hash stored by the constructor is that same
digest of exactly those three fields. -/
theorem ensureHashAndSignature_spec (C : CryptoModel) (e : IEncryptedMessage)
    (s : String) (b : MessageBody) (snd : Identity) (rcv : IPublicIdentity)
    (now : Nat) (rand : String) :
    (ensureHashAndSignature C e s =
        .error (.nonceHashInvalid e.hash e.nonce) ↔
      C.hashStr (e.message ++ e.nonce ++ toString e.createdAt) ≠ e.hash)
    ∧ (C.hashStr (e.message ++ e.nonce ++ toString e.createdAt) = e.hash →
        ensureHashAndSignature C e s =
          if C.validateSignature e.hash e.signature s then .ok ()
          else .error .signatureUnverifiable)
    ∧ (constructMessage C b snd rcv now rand).hash =
        C.hashStr ((constructMessage C b snd rcv now rand).message ++
          (constructMessage C b snd rcv now rand).nonce ++
          toString (constructMessage C b snd rcv now rand).createdAt) := by
  refine ⟨?_, ?_, rfl⟩
  · by_cases h : C.hashStr (e.message ++ e.nonce ++ toString e.createdAt) = e.hash
    · simp only [ensureHashAndSignature, h]
      by_cases hv : C.validateSignature e.hash e.signature s <;> simp [hv, h]
    · simp [ensureHashAndSignature, h]
  · intro h
    by_cases hv : C.validateSignature e.hash e.signature s <;>
      simp [ensureHashAndSignature, h, hv]

/-- C4 witness: on the tampered wire the check reports the
nonce-hash-invalid error, and on the intact wire (whose signature the toy
model accepts) it returns cleanly. -/
theorem ensureHashAndSignature_spec_witness :
    ensureHashAndSignature (toyCrypto bodyReqTerms) tamperedWire "5Alice" =
        .error (.nonceHashInvalid "bad-hash" "nn")
    ∧ ensureHashAndSignature (toyCrypto bodyReqTerms) intactWire "5Alice" =
        .ok () := by
  constructor
  · exact (ensureHashAndSignature_spec (toyCrypto bodyReqTerms) tamperedWire
      "5Alice" bodyReqTerms aliceId bobPub 7 "n1").1.mpr (by decide)
  · have h := (ensureHashAndSignature_spec (toyCrypto bodyReqTerms) intactWire
      "5Alice" bodyReqTerms aliceId bobPub 7 "n1").2.1 (by decide)
    simpa [toyCrypto] using h

/-- C5: `ensureOwnerIsSender` passes exactly when every owner address
embedded in the body (the claim owner of a request for attestation, the
attestation owner of a submitted attestation, the claim owners of a
submitted classic claim list) is string-equal to the sender address; when
it fails it fails with the identity-mismatch error naming the offending
entity and the Sender role; and every kind embedding no owner passes
unconditionally. -/
theorem ensureOwnerIsSender_spec (b : MessageBody) (s : String) :
    (ensureOwnerIsSender b s = .ok () ↔ ∀ o ∈ embeddedOwners b, o = s)
    ∧ (ensureOwnerIsSender b s ≠ .ok () →
        ensureOwnerIsSender b s =
          .error (.identityMismatch (ownerEntity b) "Sender"))
    ∧ (embeddedOwners b = [] → ensureOwnerIsSender b s = .ok ()) := by
  cases b with
  | requestAttestationForClaim c =>
    by_cases h : c.requestForAttestation.claim.owner = s <;>
      simp [ensureOwnerIsSender, embeddedOwners, ownerEntity, h]
  | submitAttestationForClaim c =>
    by_cases h : c.attestation.owner = s <;>
      simp [ensureOwnerIsSender, embeddedOwners, ownerEntity, h]
  | submitClaimsForCTypesClassic cs =>
    refine ⟨?_, ?_, ?_⟩
    · simpa [ensureOwnerIsSender, embeddedOwners] using
        checkClaimsOwner_eq_ok_iff s cs
    · intro h
      rcases checkClaimsOwner_ok_or_err s cs with h1 | h1
      · exact absurd (by simpa [ensureOwnerIsSender] using h1) h
      · simpa [ensureOwnerIsSender, ownerEntity] using h1
    · intro h
      have hcs : cs = [] := by simpa [embeddedOwners] using h
      simp [ensureOwnerIsSender, hcs, checkClaimsOwner]
  | requestTerms c => simp [ensureOwnerIsSender, embeddedOwners]
  | submitTerms c => simp [ensureOwnerIsSender, embeddedOwners]
  | rejectTerms c => simp [ensureOwnerIsSender, embeddedOwners]
  | initiateAttestation c => simp [ensureOwnerIsSender, embeddedOwners]
  | rejectAttestationForClaim c => simp [ensureOwnerIsSender, embeddedOwners]
  | requestClaimsForCTypes c => simp [ensureOwnerIsSender, embeddedOwners]
  | submitClaimsForCTypesPE c => simp [ensureOwnerIsSender, embeddedOwners]
  | acceptClaimsForCTypes c => simp [ensureOwnerIsSender, embeddedOwners]
  | rejectClaimsForCTypes c => simp [ensureOwnerIsSender, embeddedOwners]
  | requestAcceptDelegation c => simp [ensureOwnerIsSender, embeddedOwners]
  | submitAcceptDelegation c => simp [ensureOwnerIsSender, embeddedOwners]
  | rejectAcceptDelegation c => simp [ensureOwnerIsSender, embeddedOwners]
  | informCreateDelegation c => simp [ensureOwnerIsSender, embeddedOwners]

/-- C5 witness: an attestation submitted by a non-owner fails with the
identity-mismatch error naming the Attestation entity, and a
`REQUEST_TERMS` body — which embeds no owner — passes for any sender. -/
theorem ensureOwnerIsSender_spec_witness :
    ensureOwnerIsSender (subAttBody "5Eve") "5Alice" =
        .error (.identityMismatch "Attestation" "Sender")
    ∧ ensureOwnerIsSender bodyReqTerms "5Alice" = .ok () := by
  constructor
  · exact (ensureOwnerIsSender_spec (subAttBody "5Eve") "5Alice").2.1
      (by simp [ensureOwnerIsSender, subAttBody])
  · exact (ensureOwnerIsSender_spec bodyReqTerms "5Alice").2.2 rfl

/-- C9: when the integrity and signature checks pass and asymmetric
decryption yields the empty string, `decrypt` fails with the decoding
error; and the outcome is identical to the one produced by a crypto
engine whose decryption fails outright on the same wire — the empty
plaintext is indistinguishable from a decryption failure at the public
interface. -/
theorem decrypt_empty_plaintext_decoding_failure
    (C : CryptoModel) (e : IEncryptedMessage) (r : Identity)
    (hhash : C.hashStr (e.message ++ e.nonce ++ toString e.createdAt) = e.hash)
    (hsig : C.validateSignature e.hash e.signature e.senderAddress = true)
    (hdec : C.decryptAsymmetricAsStr r.secret ⟨e.message, e.nonce⟩
        e.senderBoxPublicKey = some "") :
    decrypt C e r = .error .decodingMessage
    ∧ (∀ C' : CryptoModel, C'.hashStr = C.hashStr →
        C'.validateSignature = C.validateSignature →
        C'.decryptAsymmetricAsStr r.secret ⟨e.message, e.nonce⟩
            e.senderBoxPublicKey = none →
        decrypt C' e r = decrypt C e r) := by
  have hmain : decrypt C e r = .error .decodingMessage := by
    simp [decrypt, ensureHashAndSignature, hhash, hsig, hdec]
  refine ⟨hmain, fun C' h1 h2 h3 => ?_⟩
  rw [hmain]
  simp [decrypt, ensureHashAndSignature, h1, h2, hhash, hsig, h3]

/-- C9 witness: the toy model with empty-string decryption on an intact
wire. -/
theorem decrypt_empty_plaintext_decoding_failure_witness :
    decrypt emptyPlaintextCrypto intactWire bobId = .error .decodingMessage :=
  (decrypt_empty_plaintext_decoding_failure emptyPlaintextCrypto intactWire
    bobId (by decide) (by decide) (by decide)).1

/-- C10: whenever `decrypt` succeeds, the returned object carries every
field of the input wire message unchanged — ciphertext, nonce, hash and
signature included, alongside the routing metadata — and adds exactly the
body parsed from the decrypted plaintext. -/
theorem decrypt_success_frame (C : CryptoModel) (e : IEncryptedMessage)
    (r : Identity) (d : DecryptedMessage) (h : decrypt C e r = .ok d) :
    d.message = e.message ∧ d.nonce = e.nonce ∧ d.hash = e.hash
    ∧ d.signature = e.signature ∧ d.createdAt = e.createdAt
    ∧ d.senderAddress = e.senderAddress
    ∧ d.receiverAddress = e.receiverAddress
    ∧ d.senderBoxPublicKey = e.senderBoxPublicKey
    ∧ d.messageId = e.messageId ∧ d.receivedAt = e.receivedAt
    ∧ ∃ s, C.decryptAsymmetricAsStr r.secret ⟨e.message, e.nonce⟩
          e.senderBoxPublicKey = some s
        ∧ C.parseBody s = some d.body := by
  unfold decrypt at h
  cases h1 : ensureHashAndSignature C e e.senderAddress with
  | error err => simp [h1] at h
  | ok u =>
    cases h2 : C.decryptAsymmetricAsStr r.secret ⟨e.message, e.nonce⟩
        e.senderBoxPublicKey with
    | none => simp [h1, h2] at h
    | some decoded =>
      by_cases h3 : decoded = ""
      · simp [h1, h2, h3] at h
      · cases h4 : C.parseBody decoded with
        | none => simp [h1, h2, h3, h4] at h
        | some mb =>
          cases h5 : ensureOwnerIsSender mb e.senderAddress with
          | error err2 => simp [h1, h2, h3, h4, h5] at h
          | ok u2 =>
            simp only [h1, h2, h3, h4, h5, if_neg h3] at h
            have hd : spreadWithBody e mb = d := by simpa using h
            subst hd
            refine ⟨rfl, rfl, rfl, rfl, rfl, rfl, rfl, rfl, rfl, rfl, ?_⟩
            exact ⟨decoded, rfl, h4⟩

/-- C10 witness: a full successful round trip under the toy model; the
returned object agrees with the wire on all ten carried fields and holds
the parsed body. -/
theorem decrypt_success_frame_witness :
    (spreadWithBody
        ((constructMessage (toyCrypto (subAttBody "5Alice"))
          (subAttBody "5Alice") aliceId bobPub 7 "n1").encrypt)
        (subAttBody "5Alice")).message =
      ((constructMessage (toyCrypto (subAttBody "5Alice"))
        (subAttBody "5Alice") aliceId bobPub 7 "n1").encrypt).message :=
  (decrypt_success_frame (toyCrypto (subAttBody "5Alice"))
    ((constructMessage (toyCrypto (subAttBody "5Alice"))
      (subAttBody "5Alice") aliceId bobPub 7 "n1").encrypt)
    bobId
    (spreadWithBody
      ((constructMessage (toyCrypto (subAttBody "5Alice"))
        (subAttBody "5Alice") aliceId bobPub 7 "n1").encrypt)
      (subAttBody "5Alice"))
    (by decide)).1

/-- C6: once the envelope unpacks and its JSON parses, the type-URI
routing of `decryptDIDComm` is: a parsed URI whose protocol name or
version differs from the registered constants fails with the
protocol-mismatch error (whatever the message-type segment is); a parsed
URI with matching name and version but a message-type segment outside the
closed enumeration fails with the unknown-type error; an absent URI, or
one the type-string pattern does not match, fails with the
missing-or-invalid-type-URI error. -/
theorem decryptDIDComm_typeUri_routing (env : DIDCommEnv) (wire sec : String)
    (u : UnpackedMessage) (contents : DIDCommContents)
    (hu : env.unpackMessage wire sec = some u)
    (hc : env.parseJson u.message = some contents) :
    (∀ uri pre name ver t, contents.typeUri = some uri →
      env.typeUriCaptures uri = some (pre, name, ver, t) →
      name ≠ PROTOCOL_NAME ∨ ver ≠ PROTOCOL_VERSION →
      decryptDIDComm env wire sec = .error (.cantHandleProtocol name ver))
    ∧ (∀ uri pre t, contents.typeUri = some uri →
        env.typeUriCaptures uri = some (pre, PROTOCOL_NAME, PROTOCOL_VERSION, t) →
        isKnownMessageType t = false →
        decryptDIDComm env wire sec = .error (.unknownMessageType t))
    ∧ (contents.typeUri = none →
        decryptDIDComm env wire sec = .error .invalidTypeUri)
    ∧ (∀ uri, contents.typeUri = some uri → env.typeUriCaptures uri = none →
        decryptDIDComm env wire sec = .error .invalidTypeUri) := by
  refine ⟨?_, ?_, ?_, ?_⟩
  · intro uri pre name ver t huri hcap hmismatch
    simp [decryptDIDComm, hu, hc, huri, hcap, hmismatch]
  · intro uri pre t huri hcap hunknown
    have hnone := messageBodyTypeOfString_eq_none_of_not_known t hunknown
    simp [decryptDIDComm, hu, hc, huri, hcap, hnone]
  · intro huri
    simp [decryptDIDComm, hu, hc, huri]
  · intro uri huri hcap
    simp [decryptDIDComm, hu, hc, huri, hcap]

/-- C6 witness: a wrong protocol name is rejected as protocol mismatch
even though the type segment is valid; a right name and version with a
foreign type segment is rejected as unknown type; an absent URI and an
unmatchable URI are rejected as invalid type URI. -/
theorem decryptDIDComm_typeUri_routing_witness :
    decryptDIDComm
        (toyDIDCommEnv (some "u")
          (some ("kilt.io", "other-proto", "0.19", "request-terms")))
        "w" "sec" = .error (.cantHandleProtocol "other-proto" "0.19")
    ∧ decryptDIDComm
        (toyDIDCommEnv (some "u")
          (some ("kilt.io", "kilt-messaging", "0.19", "bogus-type")))
        "w" "sec" = .error (.unknownMessageType "bogus-type")
    ∧ decryptDIDComm (toyDIDCommEnv none none) "w" "sec" =
        .error .invalidTypeUri
    ∧ decryptDIDComm (toyDIDCommEnv (some "u") none) "w" "sec" =
        .error .invalidTypeUri := by
  refine ⟨?_, ?_, ?_, ?_⟩
  · exact (decryptDIDComm_typeUri_routing
      (toyDIDCommEnv (some "u")
        (some ("kilt.io", "other-proto", "0.19", "request-terms")))
      "w" "sec" ⟨"payload", "sk", "rk"⟩
      ⟨some "u", "c", "t", none⟩ rfl rfl).1
      "u" "kilt.io" "other-proto" "0.19" "request-terms" rfl rfl
      (.inl (by decide))
  · exact (decryptDIDComm_typeUri_routing
      (toyDIDCommEnv (some "u")
        (some ("kilt.io", "kilt-messaging", "0.19", "bogus-type")))
      "w" "sec" ⟨"payload", "sk", "rk"⟩
      ⟨some "u", "c", "t", none⟩ rfl rfl).2.1
      "u" "kilt.io" "bogus-type" rfl rfl (by decide)
  · exact (decryptDIDComm_typeUri_routing (toyDIDCommEnv none none)
      "w" "sec" ⟨"payload", "sk", "rk"⟩
      ⟨none, "c", "t", none⟩ rfl rfl).2.2.1 rfl
  · exact (decryptDIDComm_typeUri_routing (toyDIDCommEnv (some "u") none)
      "w" "sec" ⟨"payload", "sk", "rk"⟩
      ⟨some "u", "c", "t", none⟩ rfl rfl).2.2.2 "u" rfl rfl

/-- C8: two envelope constructions on the identical body, sender and
receiver whose encryption calls drew distinct fresh nonces (and produced
ciphertexts of equal length, as a length-preserving box cipher does on the
same plaintext) yield wire messages with different nonce fields and — for
a collision-free digest — different hash fields. -/
theorem constructMessage_fresh_nonce_distinct_hash
    (C : CryptoModel) (b : MessageBody) (snd : Identity)
    (rcv : IPublicIdentity) (now : Nat) (r1 r2 : String)
    (hinj : Function.Injective C.hashStr)
    (hnonce : (constructMessage C b snd rcv now r1).nonce ≠
      (constructMessage C b snd rcv now r2).nonce)
    (hlen : (constructMessage C b snd rcv now r1).message.length =
      (constructMessage C b snd rcv now r2).message.length) :
    (constructMessage C b snd rcv now r1).nonce ≠
        (constructMessage C b snd rcv now r2).nonce
    ∧ (constructMessage C b snd rcv now r1).hash ≠
        (constructMessage C b snd rcv now r2).hash := by
  refine ⟨hnonce, fun hh => hnonce ?_⟩
  rw [constructMessage_hash C b snd rcv now r1,
    constructMessage_hash C b snd rcv now r2] at hh
  have heq := hinj hh
  rw [String.append_assoc, String.append_assoc] at heq
  obtain ⟨-, h2⟩ := string_append_inj heq hlen
  exact string_append_right_cancel h2

/-- C8 witness: under the toy model (identity digest, hence injective;
box equal to the plaintext, hence equal lengths) two constructions with
distinct fresh randomness have distinct nonce and hash fields. -/
theorem constructMessage_fresh_nonce_distinct_hash_witness :
    (constructMessage (toyCrypto bodyReqTerms) bodyReqTerms aliceId bobPub
        7 "n1").nonce ≠
      (constructMessage (toyCrypto bodyReqTerms) bodyReqTerms aliceId bobPub
        7 "n2").nonce
    ∧ (constructMessage (toyCrypto bodyReqTerms) bodyReqTerms aliceId bobPub
        7 "n1").hash ≠
      (constructMessage (toyCrypto bodyReqTerms) bodyReqTerms aliceId bobPub
        7 "n2").hash :=
  constructMessage_fresh_nonce_distinct_hash (toyCrypto bodyReqTerms)
    bodyReqTerms aliceId bobPub 7 "n1" "n2"
    (fun _ _ h => h) (by decide) (by decide)

/-- C1 counterexample: the round trip does not hold for every body — for
a `SUBMIT_ATTESTATION_FOR_CLAIM` body whose attestation owner differs
from the sender, decrypting the constructed and encrypted message fails
(with the parsing error) instead of returning the body. -/
theorem roundtrip_counterexample :
    decrypt (toyCrypto (subAttBody "5Eve"))
        ((constructMessage (toyCrypto (subAttBody "5Eve")) (subAttBody "5Eve")
          aliceId bobPub 7 "n1").encrypt) bobId = .error .parsingMessage := by
  decide

/-- C1 (amended): for every body that passes the ownership check against
the sender's address, and a crypto engine satisfying the collaborator
contracts on this plaintext (decryption inverts encryption, parsing
inverts serialisation, the serialised body is non-empty, the sender's
signatures validate against their address), decrypting the encrypted wire
form of the constructed message succeeds and returns the wire fields with
exactly the original body attached. -/
theorem decrypt_construct_roundtrip (C : CryptoModel) (b : MessageBody)
    (sender receiver : Identity) (receiverPub : IPublicIdentity)
    (now : Nat) (rand : String)
    (hdec : C.decryptAsymmetricAsStr receiver.secret
        ⟨(C.encryptAsymmetricAsStr sender.secret (C.stringifyBody b)
            receiverPub.boxPublicKeyAsHex rand).box,
          (C.encryptAsymmetricAsStr sender.secret (C.stringifyBody b)
            receiverPub.boxPublicKeyAsHex rand).nonce⟩
        sender.boxPublicKeyAsHex = some (C.stringifyBody b))
    (hne : C.stringifyBody b ≠ "")
    (hparse : C.parseBody (C.stringifyBody b) = some b)
    (hsig : ∀ payload, C.validateSignature payload
        (C.signStr sender.secret payload) sender.address = true)
    (howner : ensureOwnerIsSender b sender.address = .ok ()) :
    decrypt C (constructMessage C b sender receiverPub now rand).encrypt
        receiver =
      .ok (spreadWithBody
        (constructMessage C b sender receiverPub now rand).encrypt b) := by
  simp [decrypt, ensureHashAndSignature, constructMessage, Message.encrypt,
    hdec, hne, hparse, hsig, howner]

/-- C1 witness: a full round trip under the toy model for a request for
attestation owned by its sender. -/
theorem decrypt_construct_roundtrip_witness :
    decrypt (toyCrypto (reqAttBody "5Alice"))
        ((constructMessage (toyCrypto (reqAttBody "5Alice"))
          (reqAttBody "5Alice") aliceId bobPub 7 "n1").encrypt) bobId =
      .ok (spreadWithBody
        ((constructMessage (toyCrypto (reqAttBody "5Alice"))
          (reqAttBody "5Alice") aliceId bobPub 7 "n1").encrypt)
        (reqAttBody "5Alice")) :=
  decrypt_construct_roundtrip (toyCrypto (reqAttBody "5Alice"))
    (reqAttBody "5Alice") aliceId bobId bobPub 7 "n1"
    (by decide) (by decide) (by decide) (fun _ => rfl) (by decide)

/-- C3 counterexample: a decrypted `REQUEST_ATTESTATION_FOR_CLAIM` whose
embedded claim owner differs from the sender makes `decrypt` fail with
the parsing error, not with the identity-mismatch error: the mismatch
thrown by `ensureOwnerIsSender` is swallowed by the `try`/`catch` of
`decrypt` and rethrown as `ERROR_PARSING_MESSAGE`. -/
theorem decrypt_owner_mismatch_counterexample :
    decrypt (toyCrypto (reqAttBody "5Eve"))
        ((constructMessage (toyCrypto (reqAttBody "5Eve")) (reqAttBody "5Eve")
          aliceId bobPub 7 "n1").encrypt) bobId = .error .parsingMessage
    ∧ decrypt (toyCrypto (reqAttBody "5Eve"))
        ((constructMessage (toyCrypto (reqAttBody "5Eve")) (reqAttBody "5Eve")
          aliceId bobPub 7 "n1").encrypt) bobId ≠
        .error (.identityMismatch "Claim" "Sender") := by
  refine ⟨by decide, by decide⟩

/-- C3 (amended): when a wire message passes the hash and signature
checks, decrypts to a non-empty plaintext and parses into a
`REQUEST_ATTESTATION_FOR_CLAIM` body, `decrypt` fails — with the parsing
error, into which the identity mismatch is converted — exactly when the
embedded claim owner differs from the sender address, and succeeds on the
identical message when they match. -/
theorem decrypt_owner_mismatch (C : CryptoModel) (e : IEncryptedMessage)
    (r : Identity) (c : IRequestAttestationContent) (s : String)
    (hhash : C.hashStr (e.message ++ e.nonce ++ toString e.createdAt) = e.hash)
    (hsig : C.validateSignature e.hash e.signature e.senderAddress = true)
    (hdec : C.decryptAsymmetricAsStr r.secret ⟨e.message, e.nonce⟩
        e.senderBoxPublicKey = some s)
    (hne : s ≠ "")
    (hparse : C.parseBody s = some (.requestAttestationForClaim c)) :
    (c.requestForAttestation.claim.owner ≠ e.senderAddress →
      decrypt C e r = .error .parsingMessage)
    ∧ (c.requestForAttestation.claim.owner = e.senderAddress →
      decrypt C e r =
        .ok (spreadWithBody e (.requestAttestationForClaim c))) := by
  constructor
  · intro howner
    simp [decrypt, ensureHashAndSignature, hhash, hsig, hdec, hne, hparse,
      ensureOwnerIsSender, howner]
  · intro howner
    simp [decrypt, ensureHashAndSignature, hhash, hsig, hdec, hne, hparse,
      ensureOwnerIsSender, howner]

/-- C3 witness: the mismatching instance fails with the parsing error and
the identical message with matching owner succeeds. -/
theorem decrypt_owner_mismatch_witness :
    decrypt (toyCrypto (reqAttBody "5Eve"))
        ((constructMessage (toyCrypto (reqAttBody "5Eve")) (reqAttBody "5Eve")
          aliceId bobPub 8 "n2").encrypt) bobId = .error .parsingMessage
    ∧ decrypt (toyCrypto (reqAttBody "5Alice"))
        ((constructMessage (toyCrypto (reqAttBody "5Alice"))
          (reqAttBody "5Alice") aliceId bobPub 8 "n2").encrypt) bobId =
      .ok (spreadWithBody
        ((constructMessage (toyCrypto (reqAttBody "5Alice"))
          (reqAttBody "5Alice") aliceId bobPub 8 "n2").encrypt)
        (reqAttBody "5Alice")) := by
  constructor
  · exact (decrypt_owner_mismatch (toyCrypto (reqAttBody "5Eve"))
      ((constructMessage (toyCrypto (reqAttBody "5Eve")) (reqAttBody "5Eve")
        aliceId bobPub 8 "n2").encrypt) bobId
      { requestForAttestation :=
          { claim := { cTypeHash := "0xabc", contents := "c", owner := "5Eve" }
            rootHash := "0xroot" }
        quote := none }
      "serialised-body"
      (by decide) (by decide) (by decide) (by decide) (by decide)).1
      (by decide)
  · exact (decrypt_owner_mismatch (toyCrypto (reqAttBody "5Alice"))
      ((constructMessage (toyCrypto (reqAttBody "5Alice"))
        (reqAttBody "5Alice") aliceId bobPub 8 "n2").encrypt) bobId
      { requestForAttestation :=
          { claim := { cTypeHash := "0xabc", contents := "c", owner := "5Alice" }
            rootHash := "0xroot" }
        quote := none }
      "serialised-body"
      (by decide) (by decide) (by decide) (by decide) (by decide)).2
      (by decide)

/-- C7 counterexample: construction with an empty (malformed) receiver
public encryption key does not fail fast with a descriptive error — it
silently succeeds, handing the empty key to the encryption primitive and
returning a complete envelope. -/
theorem construct_empty_key_counterexample :
    constructMessage (toyCrypto bodyReqTerms) bodyReqTerms aliceId
        ⟨"5Bob", ""⟩ 7 "n1" =
      { body := bodyReqTerms, createdAt := 7, receiverAddress := "5Bob"
        senderAddress := "5Alice", senderBoxPublicKey := "0xalicebox"
        messageId := none, receivedAt := none, message := "serialised-body"
        nonce := "n1", hash := "serialised-bodyn17"
        signature := "serialised-bodyn17" } := by
  decide

/-- C7 (amended): the constructor performs no validation of the
receiver's public encryption key; for every key — the empty string
included — it passes the key straight to the asymmetric-encryption call
and its ciphertext and nonce are exactly that call's output, so any
failure on malformed keys can only arise inside the cryptographic
collaborator, never before it. -/
theorem construct_no_key_validation (C : CryptoModel) (b : MessageBody)
    (sender : Identity) (receiver : IPublicIdentity) (now : Nat)
    (rand : String) :
    (constructMessage C b sender receiver now rand).message =
        (C.encryptAsymmetricAsStr sender.secret (C.stringifyBody b)
          receiver.boxPublicKeyAsHex rand).box
    ∧ (constructMessage C b sender receiver now rand).nonce =
        (C.encryptAsymmetricAsStr sender.secret (C.stringifyBody b)
          receiver.boxPublicKeyAsHex rand).nonce :=
  ⟨rfl, rfl⟩

end KiltMessaging

